import Mathlib

/-!
Verification development for the PyTyle window-tiling core: a shallow
embedding of `Window.py`, `Tilers/Vertical.py` and `Tilers/Horizontal.py`,
together with theorems about the embedded operations.

Conventions of the embedding:
* Python integers are `Int`; Python 2 integer division `a / b` is floor
  division, embedded as `Int.fdiv`.
* The floating point layout factors are embedded as rationals `ℚ`;
  Python's `int(...)` truncation toward zero on a rational `q` is
  `Int.tdiv` of its numerator by its denominator.
* Python strings are `List Char`; `str.lower()` maps `Char.toLower`;
  `a.find(b) != -1` is the substring test `isSub b a`.
* Probe side effects are recorded as explicit traces (lists of events).
* Classes that are only declared outside the given sources
  (`Screen`, `Viewport`, `Desktop`, `TileDefault.help_resize`) are
  modelled from the specification, as marked in their doc comments.
-/

/-- Python `int(q)` for a rational `q`: truncation toward zero
(the denominator of a reduced `ℚ` is positive, so truncated division
of the numerator by the denominator is exactly `int()`). -/
def pyInt (q : ℚ) : Int := Int.tdiv q.num q.den

/-- Python `s.lower()` on a string, embedded character-wise. -/
def pyLower (s : List Char) : List Char := s.map Char.toLower

/-- Python `hay.find(needle) != -1`: `needle` occurs contiguously in `hay`. -/
def isSub (needle : List Char) : List Char → Bool
  | [] => needle.isEmpty
  | c :: rest => needle.isPrefixOf (c :: rest) || isSub needle rest

/-- Attribute snapshot returned by the probe for one window
(schema from `PROBE.get_window_by_id` / `PROBE.get_window`). -/
structure Attrs where
  id : Int
  x : Int
  y : Int
  width : Int
  height : Int
  d_left : Int
  d_right : Int
  d_top : Int
  d_bottom : Int
  desktop : Nat
  title : List Char
  winclass : Option (List Char × List Char)
  static : Bool
  hidden : Bool
  popup : Bool
  xobj : Bool
  deriving DecidableEq

/-- The `Window` entity of `Window.py`: identity, working geometry,
decoration insets, desktop, title, class tag, flags, original geometry,
and the owning-screen back-reference (kept as a screen identifier). -/
@[ext] structure Window where
  id : Int
  x : Int
  y : Int
  width : Int
  height : Int
  d_left : Int
  d_right : Int
  d_top : Int
  d_bottom : Int
  desktop : Nat
  title : List Char
  winclass : Option (List Char × List Char)
  static : Bool
  hidden : Bool
  xobj : Bool
  origx : Int
  origy : Int
  origwidth : Int
  origheight : Int
  screen : Nat
  deriving DecidableEq

/-- Modelled from the spec: a `Screen` has an identifier, full bounding
rectangle, a usable work area rectangle, an ordered window membership
(window identifiers), and belongs to a viewport. -/
@[ext] structure Screen where
  id : Nat
  x : Int
  y : Int
  width : Int
  height : Int
  wax : Int
  way : Int
  wawidth : Int
  waheight : Int
  windows : List Int
  deriving DecidableEq

/-- Modelled from the spec: a `Viewport` has an identifier, a bounding
screen-space rectangle, and owns a set of screens. -/
structure Viewport where
  id : Nat
  x : Int
  y : Int
  width : Int
  height : Int
  screens : List Screen
  deriving DecidableEq

/-- Modelled from the spec: a `Desktop` has an identifier and owns a set
of viewports. -/
structure Desktop where
  id : Nat
  viewports : List Viewport
  deriving DecidableEq

/-- Modelled from the spec: the point-in-screen test (position only),
used by `load_window` and `refresh` for spatial containment. -/
def Screen.is_on_screen (s : Screen) (px py : Int) : Bool :=
  decide (s.x ≤ px ∧ px < s.x + s.width ∧ s.y ≤ py ∧ py < s.y + s.height)

/-- Modelled from the spec: the rectangle-fits-in-screen test used by
`Window.resize`'s bounds check — the target rectangle must be fully
contained by the screen's bounds. -/
def Screen.is_in_screen (s : Screen) (px py w h : Int) : Bool :=
  decide (s.x ≤ px ∧ s.y ≤ py ∧ px + w ≤ s.x + s.width ∧ py + h ≤ s.y + s.height)

/-- Modelled from the spec: a screen's usable work area
`(x, y, width, height)`, distinct from its full bounds. -/
def Screen.get_workarea (s : Screen) : Int × Int × Int × Int :=
  (s.wax, s.way, s.wawidth, s.waheight)

/-- Modelled from the spec: the point-in-viewport test (position only). -/
def Viewport.is_on_viewport (v : Viewport) (px py : Int) : Bool :=
  decide (v.x ≤ px ∧ px < v.x + v.width ∧ v.y ≤ py ∧ py < v.y + v.height)

/-- `Window.update_attributes` from `Window.py`: writes every field of the
attribute snapshot into the entity — id, width, height, decoration insets,
desktop, title, class, static, hidden, xobj — and nothing else
(in particular not `x`, `y`, the original geometry, or the screen). -/
def updateAttributes (w : Window) (a : Attrs) : Window :=
  { w with
    id := a.id
    width := a.width
    height := a.height
    d_left := a.d_left
    d_right := a.d_right
    d_top := a.d_top
    d_bottom := a.d_bottom
    desktop := a.desktop
    title := a.title
    winclass := a.winclass
    static := a.static
    hidden := a.hidden
    xobj := a.xobj }

/-- The `Window.__init__` constructor from `Window.py`: updates the
attributes from the snapshot, zeroes the working position, captures the
snapshot geometry as the original geometry, and attaches the screen. -/
def mkWindow (screenId : Nat) (a : Attrs) : Window :=
  let w := updateAttributes
    { id := 0, x := 0, y := 0, width := 0, height := 0
      d_left := 0, d_right := 0, d_top := 0, d_bottom := 0
      desktop := 0, title := [], winclass := none
      static := false, hidden := false, xobj := false
      origx := 0, origy := 0, origwidth := 0, origheight := 0, screen := 0 } a
  { w with
    x := 0
    y := 0
    origx := a.x
    origy := a.y
    origwidth := w.width
    origheight := w.height
    screen := screenId }

/-- `Window.filtered` from `Window.py`: if the class tag is present, scan
every configured filter string against both (lowercased) class components
with Python's `find`; otherwise return `False`. -/
def pyFiltered (winclass : Option (List Char × List Char))
    (filters : List (List Char)) : Bool :=
  match winclass with
  | none => false
  | some c =>
      filters.any fun f =>
        isSub (pyLower f) (pyLower c.1) || isSub (pyLower f) (pyLower c.2)

/-- `Window.resize` from `Window.py`: silently rejected when a dimension is
below 1 or the rectangle is not fully contained by the owning screen's
bounds; otherwise the probe resize is issued (the `Bool` component) and the
stored geometry becomes exactly the requested one. -/
def Window.resize (w : Window) (scr : Screen) (x y width height : Int) :
    Window × Bool :=
  if width < 1 ∨ height < 1 ∨ scr.is_in_screen x y width height = false then
    (w, false)
  else
    ({ w with x := x, y := y, width := width, height := height }, true)

/-- A requested geometry rectangle, as handed to a resize call. -/
structure Rect where
  x : Int
  y : Int
  width : Int
  height : Int
  deriving DecidableEq

/-- Modelled from the spec: `TileDefault.help_resize` (the shared tile
engine skeleton is not among the given sources) shrinks the requested
rectangle by `margin` on every side before delegating to the window's
`resize`.  Returns the updated window, the rectangle actually passed to
`resize`, and whether the probe resize was issued. -/
def help_resize (scr : Screen) (w : Window) (x y width height margin : Int) :
    Window × Rect × Bool :=
  let r : Rect := ⟨x + margin, y + margin, width - 2 * margin, height - 2 * margin⟩
  let (w', ok) := w.resize scr r.x r.y r.width r.height
  (w', r, ok)

/-- One column loop of `Vertical._tile` (both the master loop and the slave
loop have this shape): fixed `cx`, `cw`, `ch`, the running coordinate `cy`
advancing by `ch` per window; each window goes through `help_resize`.
Returns the updated windows and the rectangles passed to `help_resize`. -/
def tileColumn (scr : Screen) (margin cx cw ch : Int) :
    List Window → Int → List Window × List Rect
  | [], _ => ([], [])
  | w :: ws, cy =>
      let step := help_resize scr w cx cy cw ch margin
      let rest := tileColumn scr margin cx cw ch ws (cy + ch)
      (step.1 :: rest.1, step.2.1 :: rest.2)

/-- The per-screen state a `Vertical` tiler works on: the screen, the
ordered master and slave windows of its tile storage, and the layout
state (`width_factor`, `margin`). -/
@[ext] structure VState where
  screen : Screen
  masters : List Window
  slaves : List Window
  width_factor : ℚ
  margin : Int
  deriving DecidableEq

/-- `Vertical._tile` from `Tilers/Vertical.py`: masters form a left column
of width `int(width * width_factor)` (full width when there are no
slaves), each of height `height / len(masters)` (floor division), stacked
top-to-bottom from the work area's top-left; slaves take the remaining
width at `x + masterWidth`, each of height `height / len(slaves)`, stacked
top-to-bottom.  Also returns the rectangles handed to `help_resize`
(masters first, then slaves, in loop order). -/
def vTile (s : VState) : VState × List Rect :=
  let (x, y, width, height) := s.screen.get_workarea
  let masters := s.masters
  let slaves := s.slaves
  let masterWidth := if slaves.isEmpty then width
    else pyInt ((width : ℚ) * s.width_factor)
  let masterHeight := if masters.isEmpty then height
    else Int.fdiv height masters.length
  let masterY := y
  let masterX := x
  let slaveWidth := if masters.isEmpty then width else width - masterWidth
  let slaveHeight := if slaves.isEmpty then height
    else Int.fdiv height slaves.length
  let slaveY := y
  let slaveX := if masters.isEmpty then x else x + masterWidth
  let mres := tileColumn s.screen s.margin masterX masterWidth masterHeight masters masterY
  let sres := tileColumn s.screen s.margin slaveX slaveWidth slaveHeight slaves slaveY
  ({ s with masters := mres.1, slaves := sres.1 }, mres.2 ++ sres.2)

/-- `Vertical._master_increase` from `Tilers/Vertical.py`: a no-op when
either role is empty; otherwise computes the pixel delta between the new
and old factor applied to the work-area width, bumps `width_factor` by
`factor`, shifts/narrows every slave by the delta and widens every master.
Also returns the acceptance flags of the issued resizes (slaves first,
then masters, in loop order). -/
def vMasterIncreaseFull (s : VState) (factor : ℚ) : VState × List Bool :=
  if s.slaves.isEmpty || s.masters.isEmpty then (s, [])
  else
    let width := s.screen.get_workarea.2.2.1
    let pixels := pyInt (((s.width_factor + factor) * width) - (s.width_factor * width))
    let sres := s.slaves.map fun sl =>
      sl.resize s.screen (sl.x + pixels) sl.y (sl.width - pixels) sl.height
    let mres := s.masters.map fun m =>
      m.resize s.screen m.x m.y (m.width + pixels) m.height
    ({ s with
        width_factor := s.width_factor + factor
        slaves := sres.map Prod.fst
        masters := mres.map Prod.fst },
      sres.map Prod.snd ++ mres.map Prod.snd)

/-- `Vertical._master_increase`, state part. -/
def vMasterIncrease (s : VState) (factor : ℚ) : VState :=
  (vMasterIncreaseFull s factor).1

/-- `Vertical._master_decrease` from `Tilers/Vertical.py`: a no-op when
either role is empty; otherwise computes the pixel delta between the old
and new factor applied to the work-area width, drops `width_factor` by
`factor`, shifts/widens every slave by the delta and narrows every master.
Also returns the acceptance flags of the issued resizes. -/
def vMasterDecreaseFull (s : VState) (factor : ℚ) : VState × List Bool :=
  if s.slaves.isEmpty || s.masters.isEmpty then (s, [])
  else
    let width := s.screen.get_workarea.2.2.1
    let pixels := pyInt ((s.width_factor * width) - ((s.width_factor - factor) * width))
    let sres := s.slaves.map fun sl =>
      sl.resize s.screen (sl.x - pixels) sl.y (sl.width + pixels) sl.height
    let mres := s.masters.map fun m =>
      m.resize s.screen m.x m.y (m.width - pixels) m.height
    ({ s with
        width_factor := s.width_factor - factor
        slaves := sres.map Prod.fst
        masters := mres.map Prod.fst },
      sres.map Prod.snd ++ mres.map Prod.snd)

/-- `Vertical._master_decrease`, state part. -/
def vMasterDecrease (s : VState) (factor : ℚ) : VState :=
  (vMasterDecreaseFull s factor).1

/-- The per-screen state a `Horizontal` tiler works on. -/
@[ext] structure HState where
  screen : Screen
  masters : List Window
  slaves : List Window
  height_factor : ℚ
  margin : Int
  deriving DecidableEq

/-- `Horizontal._master_increase` from `Tilers/Horizontal.py` (the
transpose of the Vertical variant): a no-op when either role is empty;
otherwise bumps `height_factor` by `factor` and moves/resizes windows
vertically by the pixel delta. -/
def hMasterIncreaseFull (s : HState) (factor : ℚ) : HState × List Bool :=
  if s.slaves.isEmpty || s.masters.isEmpty then (s, [])
  else
    let height := s.screen.get_workarea.2.2.2
    let pixels := pyInt (((s.height_factor + factor) * height) - (s.height_factor * height))
    let sres := s.slaves.map fun sl =>
      sl.resize s.screen sl.x (sl.y + pixels) sl.width (sl.height - pixels)
    let mres := s.masters.map fun m =>
      m.resize s.screen m.x m.y m.width (m.height + pixels)
    ({ s with
        height_factor := s.height_factor + factor
        slaves := sres.map Prod.fst
        masters := mres.map Prod.fst },
      sres.map Prod.snd ++ mres.map Prod.snd)

/-- `Horizontal._master_increase`, state part. -/
def hMasterIncrease (s : HState) (factor : ℚ) : HState :=
  (hMasterIncreaseFull s factor).1

/-- `Horizontal._master_decrease` from `Tilers/Horizontal.py`: a no-op
when either role is empty; otherwise drops `height_factor` by `factor`
and moves/resizes windows vertically by the pixel delta. -/
def hMasterDecreaseFull (s : HState) (factor : ℚ) : HState × List Bool :=
  if s.slaves.isEmpty || s.masters.isEmpty then (s, [])
  else
    let height := s.screen.get_workarea.2.2.2
    let pixels := pyInt ((s.height_factor * height) - ((s.height_factor - factor) * height))
    let sres := s.slaves.map fun sl =>
      sl.resize s.screen sl.x (sl.y - pixels) sl.width (sl.height + pixels)
    let mres := s.masters.map fun m =>
      m.resize s.screen m.x m.y m.width (m.height - pixels)
    ({ s with
        height_factor := s.height_factor - factor
        slaves := sres.map Prod.fst
        masters := mres.map Prod.fst },
      sres.map Prod.snd ++ mres.map Prod.snd)

/-- `Horizontal._master_decrease`, state part. -/
def hMasterDecrease (s : HState) (factor : ℚ) : HState :=
  (hMasterDecreaseFull s factor).1

/-- Apply a screen transformation to every screen of every viewport of
every desktop (the hierarchy's topology is immutable; only screens'
membership changes). -/
def mapScreens (h : Screen → Screen) (ds : List Desktop) : List Desktop :=
  ds.map fun d =>
    { d with viewports := d.viewports.map fun vp =>
        { vp with screens := vp.screens.map h } }

/-- Modelled from the spec: `Screen.delete_window` — remove the window
from the membership of the screen(s) with the given identifier. -/
def deleteFromScreen (ds : List Desktop) (sid : Nat) (wid : Int) :
    List Desktop :=
  mapScreens
    (fun s => if s.id = sid
      then { s with windows := s.windows.filter fun i => i != wid }
      else s) ds

/-- Modelled from the spec: `Screen.add_window` — append the window to the
membership of the screen(s) with the given identifier. -/
def addToScreen (ds : List Desktop) (sid : Nat) (wid : Int) :
    List Desktop :=
  mapScreens
    (fun s => if s.id = sid
      then { s with windows := s.windows ++ [wid] }
      else s) ds

/-- The screens owned by a desktop, in viewport order. -/
def screensOfDesktop (d : Desktop) : List Screen :=
  (d.viewports.map Viewport.screens).flatten

/-- Every screen of the desktop hierarchy. -/
def allScreens (ds : List Desktop) : List Screen :=
  (ds.map screensOfDesktop).flatten

/-- The screens visited by the nested viewport/screen loops of
`load_window` and `refresh`: for each viewport of the desktop containing
the position, its screens containing the position, in order. -/
def containingScreens (d : Desktop) (px py : Int) : List Screen :=
  ((d.viewports.filter fun vp => vp.is_on_viewport px py).map
    fun vp => vp.screens.filter fun sc => sc.is_on_screen px py).flatten

/-- The side effects of one `Window.load_window` call: the `Window`
objects constructed, the window identifiers registered with the probe for
change notifications (`window_listen`), the screen memberships added, the
screens marked dirty (`needs_tiling`), and the windows activated. -/
structure LoadResult where
  created : List Window
  listened : List Int
  added : List (Nat × Int)
  dirty : List Nat
  activated : List Int
  deriving DecidableEq

/-- The body of `load_window`'s inner loop, executed for one containing
screen: construct the `Window` (its constructor registers the probe
listener when it has a handle); when it is not filtered, add it to the
screen's membership, mark the screen dirty, and activate it if it is the
probe's active window. -/
def loadStep (filters : List (List Char)) (activeId : Int) (a : Attrs)
    (acc : LoadResult) (sc : Screen) : LoadResult :=
  let win := mkWindow sc.id a
  let acc1 := { acc with
    created := acc.created ++ [win]
    listened := acc.listened ++ (if a.xobj then [win.id] else []) }
  if pyFiltered win.winclass filters then acc1
  else { acc1 with
    added := acc1.added ++ [(sc.id, win.id)]
    dirty := acc1.dirty ++ [sc.id]
    activated := acc1.activated ++ (if win.id == activeId then [win.id] else []) }

/-- `Window.load_window` from `Window.py`: fetch the attribute snapshot;
if the window is not a popup and its desktop is tracked, walk that
desktop's viewports and screens containing the reported position and run
the admission body on each. -/
def loadWindow (desktops : List Desktop) (filters : List (List Char))
    (activeId : Int) (a : Attrs) : LoadResult :=
  if a.popup then ⟨[], [], [], [], []⟩
  else
    match desktops.find? (fun d => d.id == a.desktop) with
    | none => ⟨[], [], [], [], []⟩
    | some d =>
        (containingScreens d a.x a.y).foldl (loadStep filters activeId a)
          ⟨[], [], [], [], []⟩

/-- The outcome of one `Window.refresh` call: the updated entity, the
updated desktop hierarchy, and the trace of screens marked dirty
(`needs_tiling`), in call order. -/
structure RefreshResult where
  win : Window
  desktops : List Desktop
  dirty : List Nat
  deriving DecidableEq

/-- The body of `refresh`'s relocation loop, executed for one containing
screen of the new desktop: delete the window from the old screen, add it
to the new one, mark the new then the old screen dirty, and update the
owning-screen back-reference. -/
def relocStep (os : Screen) (acc : RefreshResult) (sc : Screen) :
    RefreshResult :=
  { win := { acc.win with screen := sc.id }
    desktops := addToScreen (deleteFromScreen acc.desktops os.id acc.win.id)
      sc.id acc.win.id
    dirty := acc.dirty ++ [sc.id, os.id] }

/-- `Window.refresh` from `Window.py`: re-read the attribute snapshot but
overwrite its width/height with the entity's own last-known values before
`update_attributes`; then, if the desktop changed or the reported position
left the current viewport or the current screen, relocate the window to
the containing screen(s) of the new desktop; else, if only the hidden flag
flipped, mark the current screen dirty.  The window's old screen object
(with its viewport and desktop) is passed explicitly, as Python reaches
them through the `self.screen` object reference; a failed desktop lookup
(a `KeyError` in Python) stops after the attribute update.  The final
re-read of the session-level active pointer (`State.reload_active`)
touches no entity or hierarchy state and is outside this model. -/
def refresh (w : Window) (od : Desktop) (ovp : Viewport) (os : Screen)
    (u : Attrs) (desktops : List Desktop) : RefreshResult :=
  let oldstate := w.hidden
  let u' := { u with width := w.width, height := w.height }
  let w' := updateAttributes w u'
  if od.id ≠ w'.desktop ∨ ovp.is_on_viewport u.x u.y = false ∨
      os.is_on_screen u.x u.y = false then
    match desktops.find? (fun d => d.id == w'.desktop) with
    | none => ⟨w', desktops, []⟩
    | some nd =>
        (containingScreens nd u.x u.y).foldl (relocStep os) ⟨w', desktops, []⟩
  else if oldstate ≠ w'.hidden then ⟨w', desktops, [w'.screen]⟩
  else ⟨w', desktops, []⟩

/-- `pyInt` of an integer is that integer. -/
lemma pyInt_coe (n : Int) : pyInt ((n : ℚ)) = n := by
  simp [pyInt, Rat.num_intCast, Rat.den_intCast]

/-- An accepted resize stores exactly the requested geometry. -/
lemma resize_accepted {w : Window} {scr : Screen} {x y wd ht : Int}
    (h : (w.resize scr x y wd ht).2 = true) :
    w.resize scr x y wd ht =
      ({ w with x := x, y := y, width := wd, height := ht }, true) := by
  by_cases hc : wd < 1 ∨ ht < 1 ∨ scr.is_in_screen x y wd ht = false
  · rw [Window.resize, if_pos hc] at h; simp at h
  · rw [Window.resize, if_neg hc]

/-- `List.isPrefixOf` characterized by an existential split of the list. -/
lemma pyIsPrefix_iff : ∀ (n h : List Char), n.isPrefixOf h = true ↔ ∃ t, h = n ++ t
  | [], h => by simp [List.isPrefixOf]
  | c :: n', [] => by simp [List.isPrefixOf]
  | c :: n', d :: h' => by
      simp only [List.isPrefixOf, Bool.and_eq_true, beq_iff_eq, pyIsPrefix_iff n' h',
        List.cons_append, List.cons.injEq]
      constructor
      · rintro ⟨rfl, t, rfl⟩; exact ⟨t, rfl, rfl⟩
      · rintro ⟨t, rfl, rfl⟩; exact ⟨rfl, t, rfl⟩

/-- The substring test `isSub` (Python's `find(...) != -1`) holds exactly
when the hay splits around the needle. -/
lemma isSub_iff : ∀ (n h : List Char), isSub n h = true ↔ ∃ p q, h = p ++ n ++ q
  | n, [] => by
      simp only [isSub, List.isEmpty_iff]
      constructor
      · rintro rfl; exact ⟨[], [], rfl⟩
      · rintro ⟨p, q, hpq⟩
        rcases List.append_eq_nil.mp (List.append_eq_nil.mp hpq.symm).1 with ⟨-, h2⟩
        exact h2
  | n, c :: h' => by
      simp only [isSub, Bool.or_eq_true, pyIsPrefix_iff, isSub_iff n h']
      constructor
      · rintro (⟨t, ht⟩ | ⟨p, q, hpq⟩)
        · exact ⟨[], t, by simpa using ht⟩
        · exact ⟨c :: p, q, by simp [hpq]⟩
      · rintro ⟨p, q, hpq⟩
        cases p with
        | nil => exact Or.inl ⟨q, by simpa using hpq⟩
        | cons c' p' =>
            simp only [List.cons_append, List.cons.injEq] at hpq
            exact Or.inr ⟨p', q, hpq.2⟩

/-- The rectangles a column loop hands to `resize`: the `i`-th window gets
the fixed column position and size, shifted down by `i` times the height
and shrunk by the margin on every side. -/
lemma tileColumn_requests (scr : Screen) (m cx cw ch : Int) :
    ∀ (ws : List Window) (cy : Int),
      (tileColumn scr m cx cw ch ws cy).2 =
        (List.range ws.length).map fun i =>
          ⟨cx + m, cy + i * ch + m, cw - 2 * m, ch - 2 * m⟩
  | [], cy => rfl
  | w :: ws, cy => by
      simp only [tileColumn, help_resize, List.length_cons, List.range_succ_eq_map,
        List.map_cons, List.map_map, tileColumn_requests scr m cx cw ch ws (cy + ch)]
      congr 1
      · simp
      · apply List.map_congr_left
        intro i _
        simp only [Function.comp_apply, Rect.mk.injEq, and_true, true_and]
        push_cast
        ring

/-- The relocation loop of `refresh` only ever rewrites the entity's
owning-screen back-reference, never any other field. -/
lemma relocFold_win (os : Screen) :
    ∀ (ts : List Screen) (acc : RefreshResult),
      ∃ sid, (ts.foldl (relocStep os) acc).win = { acc.win with screen := sid }
  | [], acc => ⟨acc.win.screen, rfl⟩
  | sc :: ts, acc => by
      obtain ⟨sid, h⟩ := relocFold_win os ts (relocStep os acc sc)
      exact ⟨sid, h⟩

/-- `refresh` always produces the attribute-updated entity (with the
probe's width/height overwritten by the entity's own), except possibly
for the owning-screen back-reference. -/
lemma refresh_win_shape (w : Window) (od : Desktop) (ovp : Viewport)
    (os : Screen) (u : Attrs) (desktops : List Desktop) :
    ∃ sid, (refresh w od ovp os u desktops).win =
      { updateAttributes w { u with width := w.width, height := w.height }
        with screen := sid } := by
  rw [refresh]
  split
  · split
    · exact ⟨(updateAttributes w { u with width := w.width, height := w.height }).screen, rfl⟩
    · exact relocFold_win os _ _
  · split
    · exact ⟨(updateAttributes w { u with width := w.width, height := w.height }).screen, rfl⟩
    · exact ⟨(updateAttributes w { u with width := w.width, height := w.height }).screen, rfl⟩

/-- Transforming every screen commutes with collecting all screens. -/
lemma allScreens_mapScreens (h : Screen → Screen) (ds : List Desktop) :
    allScreens (mapScreens h ds) = (allScreens ds).map h := by
  simp only [allScreens, mapScreens, screensOfDesktop, List.map_map,
    List.map_flatten]
  congr 1
  apply List.map_congr_left
  intro d _
  simp only [Function.comp_apply, screensOfDesktop, List.map_map, List.map_flatten]
  congr 1

/-- Membership in the screens of a per-screen-transformed hierarchy. -/
lemma mem_allScreens_mapScreens {s : Screen} (h : Screen → Screen)
    (ds : List Desktop) :
    s ∈ allScreens (mapScreens h ds) ↔ ∃ s₀ ∈ allScreens ds, s = h s₀ := by
  rw [allScreens_mapScreens]
  simp only [List.mem_map]
  exact ⟨fun ⟨a, ha, he⟩ => ⟨a, ha, he.symm⟩, fun ⟨a, ha, he⟩ => ⟨a, ha, he.symm⟩⟩

/-- When the attribute snapshot matches a configured filter, the
admission loop of `load_window` constructs and registers windows but
never adds a membership, marks a screen dirty, or activates. -/
lemma loadStep_filtered {filters : List (List Char)} {activeId : Int}
    {a : Attrs} (hf : pyFiltered a.winclass filters = true) :
    ∀ (ts : List Screen) (acc : LoadResult),
      (ts.foldl (loadStep filters activeId a) acc).added = acc.added ∧
      (ts.foldl (loadStep filters activeId a) acc).dirty = acc.dirty ∧
      (ts.foldl (loadStep filters activeId a) acc).activated = acc.activated
  | [], acc => ⟨rfl, rfl, rfl⟩
  | sc :: ts, acc => by
      have hstep : loadStep filters activeId a acc sc =
          { acc with
            created := acc.created ++ [mkWindow sc.id a]
            listened := acc.listened ++ (if a.xobj then [(mkWindow sc.id a).id] else []) } := by
        rw [loadStep, if_pos]
        show pyFiltered a.winclass filters = true
        exact hf
      rw [List.foldl_cons, hstep]
      exact loadStep_filtered hf ts _

/-- A slave shifted right and narrowed by `p`, then shifted left and
widened by `p`, is restored exactly when both resizes were accepted. -/
lemma slave_roundtrip_one (scr : Screen) (p : Int) (sl : Window)
    (h1 : (sl.resize scr (sl.x + p) sl.y (sl.width - p) sl.height).2 = true)
    (h2 : (((sl.resize scr (sl.x + p) sl.y (sl.width - p) sl.height).1).resize scr
        ((sl.resize scr (sl.x + p) sl.y (sl.width - p) sl.height).1.x - p)
        ((sl.resize scr (sl.x + p) sl.y (sl.width - p) sl.height).1.y)
        ((sl.resize scr (sl.x + p) sl.y (sl.width - p) sl.height).1.width + p)
        ((sl.resize scr (sl.x + p) sl.y (sl.width - p) sl.height).1.height)).2 = true) :
    (((sl.resize scr (sl.x + p) sl.y (sl.width - p) sl.height).1).resize scr
        ((sl.resize scr (sl.x + p) sl.y (sl.width - p) sl.height).1.x - p)
        ((sl.resize scr (sl.x + p) sl.y (sl.width - p) sl.height).1.y)
        ((sl.resize scr (sl.x + p) sl.y (sl.width - p) sl.height).1.width + p)
        ((sl.resize scr (sl.x + p) sl.y (sl.width - p) sl.height).1.height)).1 = sl := by
  have e1 := resize_accepted h1
  rw [e1] at h2 ⊢
  have e2 := resize_accepted h2
  rw [e2]
  apply Window.ext <;> simp

/-- A master widened by `p` then narrowed by `p` at fixed position is
restored exactly when both resizes were accepted. -/
lemma master_roundtrip_one (scr : Screen) (p : Int) (m : Window)
    (h1 : (m.resize scr m.x m.y (m.width + p) m.height).2 = true)
    (h2 : (((m.resize scr m.x m.y (m.width + p) m.height).1).resize scr
        ((m.resize scr m.x m.y (m.width + p) m.height).1.x)
        ((m.resize scr m.x m.y (m.width + p) m.height).1.y)
        ((m.resize scr m.x m.y (m.width + p) m.height).1.width - p)
        ((m.resize scr m.x m.y (m.width + p) m.height).1.height)).2 = true) :
    (((m.resize scr m.x m.y (m.width + p) m.height).1).resize scr
        ((m.resize scr m.x m.y (m.width + p) m.height).1.x)
        ((m.resize scr m.x m.y (m.width + p) m.height).1.y)
        ((m.resize scr m.x m.y (m.width + p) m.height).1.width - p)
        ((m.resize scr m.x m.y (m.width + p) m.height).1.height)).1 = m := by
  have e1 := resize_accepted h1
  rw [e1] at h2 ⊢
  have e2 := resize_accepted h2
  rw [e2]
  apply Window.ext <;> simp

/-- Mapping an accepted increase step and then an accepted decrease step
over a window list restores the list. -/
lemma roundtrip_map (inc dec : Window → Window × Bool) :
    ∀ (l : List Window),
      (∀ w ∈ l, (inc w).2 = true) →
      (∀ w ∈ l, (dec (inc w).1).2 = true) →
      (∀ w ∈ l, (inc w).2 = true → (dec (inc w).1).2 = true → (dec (inc w).1).1 = w) →
      (l.map fun w => (inc w).1).map (fun w => (dec w).1) = l
  | [], _, _, _ => rfl
  | w :: l, h1, h2, hrt => by
      simp only [List.map_cons, List.cons.injEq]
      refine ⟨hrt w (List.mem_cons_self ..) (h1 w (List.mem_cons_self ..))
        (h2 w (List.mem_cons_self ..)), ?_⟩
      exact roundtrip_map inc dec l (fun a ha => h1 a (List.mem_cons_of_mem _ ha))
        (fun a ha => h2 a (List.mem_cons_of_mem _ ha))
        (fun a ha => hrt a (List.mem_cons_of_mem _ ha))

/-- The claimed Vertical geometry, stated from the spec's words: with at
least one master and one slave, each master gets width
`int(width_factor × width)` and height `height / master_count`, stacked
top-to-bottom from the work area's top-left; each slave gets the
remaining width at `x + master_width` with height `height / slave_count`,
stacked top-to-bottom. -/
def verticalSpecRects (x y width height : Int) (wf : ℚ) (nm ns : Nat) :
    List Rect :=
  let mw := pyInt (wf * (width : ℚ))
  let mh := Int.fdiv height nm
  let sh := Int.fdiv height ns
  ((List.range nm).map fun i => ⟨x, y + i * mh, mw, mh⟩) ++
    ((List.range ns).map fun j => ⟨x + mw, y + j * sh, width - mw, sh⟩)

/-- A 1280×800 screen whose work area is its full bounds. -/
def exScreen : Screen :=
  { id := 0, x := 0, y := 0, width := 1280, height := 800,
    wax := 0, way := 0, wawidth := 1280, waheight := 800, windows := [] }

/-- A window with the given identity and geometry on `exScreen`. -/
def exWin (wid : Int) (x y w h : Int) : Window :=
  { id := wid, x := x, y := y, width := w, height := h,
    d_left := 0, d_right := 0, d_top := 0, d_bottom := 0,
    desktop := 0, title := [], winclass := none,
    static := false, hidden := false, xobj := true,
    origx := 0, origy := 0, origwidth := w, origheight := h, screen := 0 }

/-- The spec's Vertical example: 2 masters and 1 slave on `exScreen`,
`width_factor = 0.6`, `margin = 0`. -/
def exTileState : VState :=
  { screen := exScreen,
    masters := [exWin 1 0 0 10 10, exWin 2 0 0 10 10],
    slaves := [exWin 3 0 0 10 10],
    width_factor := 3/5, margin := 0 }

/-- A tiled state with `width_factor = 0.95`: the slave column is only
64 pixels wide, so a further increase drives its width to zero. -/
def exNarrow : VState :=
  { screen := exScreen,
    masters := [exWin 1 0 0 1216 800],
    slaves := [exWin 2 1216 0 64 800],
    width_factor := 19/20, margin := 0 }

/-- A tiled state with `width_factor = 0.5`, wide enough that a 0.05
increase and decrease both keep every resize inside the screen. -/
def exHalf : VState :=
  { screen := exScreen,
    masters := [exWin 1 0 0 640 800],
    slaves := [exWin 2 640 0 640 800],
    width_factor := 1/2, margin := 0 }

/-- A Vertical state with no slave windows. -/
def exNoSlavesV : VState :=
  { screen := exScreen, masters := [exWin 1 0 0 1280 800], slaves := [],
    width_factor := 1/2, margin := 0 }

/-- A Horizontal state with no master windows. -/
def exNoMastersH : HState :=
  { screen := exScreen, masters := [], slaves := [exWin 1 0 0 1280 800],
    height_factor := 1/2, margin := 0 }

/-- C3: `resize(x, y, width, height)` is a silent no-op — no probe call,
stored geometry untouched — whenever `width < 1`, `height < 1`, or the
rectangle is not fully contained in the owning screen's bounds; otherwise
the resize is issued to the probe and the stored geometry becomes exactly
the requested rectangle. -/
theorem resize_contract (w : Window) (scr : Screen) (x y wd ht : Int) :
    ((wd < 1 ∨ ht < 1 ∨ scr.is_in_screen x y wd ht = false) →
      w.resize scr x y wd ht = (w, false)) ∧
    (1 ≤ wd → 1 ≤ ht → scr.is_in_screen x y wd ht = true →
      w.resize scr x y wd ht =
        ({ w with x := x, y := y, width := wd, height := ht }, true)) := by
  constructor
  · intro h
    rw [Window.resize, if_pos h]
  · intro h1 h2 h3
    rw [Window.resize, if_neg]
    push_neg
    exact ⟨by omega, by omega, by simp [h3]⟩

/-- C3 witness: on the 1280×800 screen, a zero-width request and an
out-of-bounds request are both no-ops, while an in-bounds request is
issued and stored verbatim. -/
theorem resize_contract_witness :
    (exWin 1 0 0 50 50).resize exScreen 0 0 0 800 = (exWin 1 0 0 50 50, false) ∧
    (exWin 1 0 0 50 50).resize exScreen 2000 0 100 100 = (exWin 1 0 0 50 50, false) ∧
    (exWin 1 0 0 50 50).resize exScreen 10 10 100 100 =
      ({ exWin 1 0 0 50 50 with x := 10, y := 10, width := 100, height := 100 }, true) :=
  ⟨(resize_contract (exWin 1 0 0 50 50) exScreen 0 0 0 800).1 (Or.inl (by decide)),
   (resize_contract (exWin 1 0 0 50 50) exScreen 2000 0 100 100).1
     (Or.inr (Or.inr (by decide))),
   (resize_contract (exWin 1 0 0 50 50) exScreen 10 10 100 100).2
     (by decide) (by decide) (by decide)⟩

/-- C6: with an empty master list or an empty slave list,
`master_increase` and `master_decrease` — in both the Vertical and the
Horizontal variant — are complete no-ops: the proportion factor and every
window's geometry are unchanged. -/
theorem master_change_noop (s : VState) (t : HState) (f g : ℚ)
    (hv : s.masters = [] ∨ s.slaves = []) (hh : t.masters = [] ∨ t.slaves = []) :
    vMasterIncrease s f = s ∧ vMasterDecrease s f = s ∧
    hMasterIncrease t g = t ∧ hMasterDecrease t g = t := by
  have hv' : (s.slaves.isEmpty || s.masters.isEmpty) = true := by
    rcases hv with h | h <;> simp [h]
  have hh' : (t.slaves.isEmpty || t.masters.isEmpty) = true := by
    rcases hh with h | h <;> simp [h]
  refine ⟨?_, ?_, ?_, ?_⟩
  · rw [vMasterIncrease, vMasterIncreaseFull, if_pos hv']
  · rw [vMasterDecrease, vMasterDecreaseFull, if_pos hv']
  · rw [hMasterIncrease, hMasterIncreaseFull, if_pos hh']
  · rw [hMasterDecrease, hMasterDecreaseFull, if_pos hh']

/-- C6 witness: a slave-less Vertical state and a master-less Horizontal
state are left exactly as they are by both proportion commands. -/
theorem master_change_noop_witness :
    (exNoSlavesV.masters = [] ∨ exNoSlavesV.slaves = []) ∧
    (exNoMastersH.masters = [] ∨ exNoMastersH.slaves = []) ∧
    vMasterIncrease exNoSlavesV (1/20) = exNoSlavesV ∧
    vMasterDecrease exNoSlavesV (1/20) = exNoSlavesV ∧
    hMasterIncrease exNoMastersH (1/20) = exNoMastersH ∧
    hMasterDecrease exNoMastersH (1/20) = exNoMastersH :=
  have h := master_change_noop exNoSlavesV exNoMastersH (1/20) (1/20)
    (Or.inr rfl) (Or.inl rfl)
  ⟨Or.inr rfl, Or.inl rfl, h.1, h.2.1, h.2.2.1, h.2.2.2⟩

/-- C9: with both roles non-empty, `master_increase(factor)` sets
`width_factor` to exactly its old value plus `factor`, and
`master_decrease(factor)` to its old value minus `factor`, with no
clamping to any range. -/
theorem master_change_factor_unclamped (s : VState) (f : ℚ)
    (hm : s.masters ≠ []) (hs : s.slaves ≠ []) :
    (vMasterIncrease s f).width_factor = s.width_factor + f ∧
    (vMasterDecrease s f).width_factor = s.width_factor - f := by
  have hg : (s.slaves.isEmpty || s.masters.isEmpty) = false := by
    simp [List.isEmpty_iff, hm, hs]
  constructor
  · rw [vMasterIncrease, vMasterIncreaseFull, if_neg (by simp [hg])]
  · rw [vMasterDecrease, vMasterDecreaseFull, if_neg (by simp [hg])]

/-- C9 witness: on `exNarrow`, decreasing by a full 1.0 drives
`width_factor` to −0.05 — below zero, unclamped — and increasing by 0.05
updates the factor while the slave's resize is silently rejected (its
requested width would be 0) even though the master's is issued. -/
theorem master_change_factor_unclamped_witness :
    exNarrow.masters ≠ [] ∧ exNarrow.slaves ≠ [] ∧
    (vMasterDecrease exNarrow 1).width_factor = exNarrow.width_factor - 1 ∧
    (vMasterDecrease exNarrow 1).width_factor < 0 ∧
    (vMasterIncrease exNarrow (1/20)).width_factor = exNarrow.width_factor + 1/20 ∧
    (vMasterIncreaseFull exNarrow (1/20)).2 = [false, true] := by
  have hm : exNarrow.masters ≠ [] := by decide
  have hs : exNarrow.slaves ≠ [] := by decide
  have hdec := (master_change_factor_unclamped exNarrow 1 hm hs).2
  have hinc := (master_change_factor_unclamped exNarrow (1/20) hm hs).1
  refine ⟨hm, hs, hdec, ?_, hinc, ?_⟩
  · rw [hdec]; norm_num [exNarrow]
  · norm_num [vMasterIncreaseFull, pyInt, Window.resize, Screen.is_in_screen,
      Screen.get_workarea, exNarrow, exWin, exScreen]

/-- C7: `filtered()` returns true exactly when a class tag is present and
one of its two components contains some configured filter string as a
case-insensitive substring; with no class tag it returns false.  In
particular a `["xterm", "XTerm"]` window is filtered when `"xterm"` is
configured. -/
theorem filtered_iff (wc : Option (List Char × List Char))
    (fs : List (List Char)) :
    (pyFiltered wc fs = true ↔
      ∃ c, wc = some c ∧ ∃ f ∈ fs,
        ((∃ p q, pyLower c.1 = p ++ pyLower f ++ q) ∨
         (∃ p q, pyLower c.2 = p ++ pyLower f ++ q))) ∧
    pyFiltered none fs = false ∧
    pyFiltered (some ("xterm".toList, "XTerm".toList)) ["xterm".toList] = true := by
  refine ⟨?_, rfl, by decide⟩
  cases wc with
  | none => simp [pyFiltered]
  | some c =>
      simp only [pyFiltered, List.any_eq_true, Bool.or_eq_true, isSub_iff,
        Option.some.injEq]
      constructor
      · rintro ⟨f, hf, hc⟩
        exact ⟨c, rfl, f, hf, hc⟩
      · rintro ⟨c', hc', f, hf, hsub⟩
        cases hc'
        exact ⟨f, hf, hsub⟩

/-- C8: `refresh` never changes the entity's stored width and height —
the probe-reported ones are overwritten with the entity's own before
`update_attributes` — while desktop, title, class, visibility, decoration
insets and the static flag are taken from the probe snapshot. -/
theorem refresh_preserves_size (w : Window) (od : Desktop) (ovp : Viewport)
    (os : Screen) (u : Attrs) (desktops : List Desktop) :
    (refresh w od ovp os u desktops).win.width = w.width ∧
    (refresh w od ovp os u desktops).win.height = w.height ∧
    (refresh w od ovp os u desktops).win.desktop = u.desktop ∧
    (refresh w od ovp os u desktops).win.title = u.title ∧
    (refresh w od ovp os u desktops).win.winclass = u.winclass ∧
    (refresh w od ovp os u desktops).win.hidden = u.hidden ∧
    (refresh w od ovp os u desktops).win.static = u.static ∧
    (refresh w od ovp os u desktops).win.d_left = u.d_left ∧
    (refresh w od ovp os u desktops).win.d_right = u.d_right ∧
    (refresh w od ovp os u desktops).win.d_top = u.d_top ∧
    (refresh w od ovp os u desktops).win.d_bottom = u.d_bottom := by
  obtain ⟨sid, h⟩ := refresh_win_shape w od ovp os u desktops
  rw [h]
  exact ⟨rfl, rfl, rfl, rfl, rfl, rfl, rfl, rfl, rfl, rfl, rfl⟩

/-- C10: `refresh` never changes the entity's stored working position:
`x` and `y` survive every refresh, because `update_attributes` writes
every probe field except them; they are written by the constructor (to
zero) and otherwise only by an accepted resize. -/
theorem refresh_preserves_position (w : Window) (od : Desktop)
    (ovp : Viewport) (os : Screen) (u : Attrs) (desktops : List Desktop)
    (sid : Nat) (a : Attrs) :
    (refresh w od ovp os u desktops).win.x = w.x ∧
    (refresh w od ovp os u desktops).win.y = w.y ∧
    (mkWindow sid a).x = 0 ∧ (mkWindow sid a).y = 0 := by
  obtain ⟨sid', h⟩ := refresh_win_shape w od ovp os u desktops
  rw [h]
  exact ⟨rfl, rfl, rfl, rfl⟩

/-- C1: with at least one master and one slave and no margin, the
rectangles `Vertical._tile` hands to the resize helper are exactly the
claimed ones — masters in a left column of width `int(width_factor ×
width)`, each `height / master_count` tall, stacked from the work area's
top-left; slaves in the remaining width at `x + master_width`, each
`height / slave_count` tall, stacked top-to-bottom. -/
theorem vertical_tile_requests (s : VState)
    (hm : s.masters ≠ []) (hs : s.slaves ≠ []) (hmg : s.margin = 0) :
    (vTile s).2 =
      verticalSpecRects s.screen.wax s.screen.way s.screen.wawidth
        s.screen.waheight s.width_factor s.masters.length s.slaves.length := by
  have hm' : s.masters.isEmpty = false := by simp [List.isEmpty_iff, hm]
  have hs' : s.slaves.isEmpty = false := by simp [List.isEmpty_iff, hs]
  have hmw : pyInt (((s.screen.wawidth : Int) : ℚ) * s.width_factor) =
      pyInt (s.width_factor * ((s.screen.wawidth : Int) : ℚ)) := by
    rw [mul_comm]
  simp only [vTile, Screen.get_workarea, hm', hs', Bool.false_eq_true,
    if_false, tileColumn_requests, hmg, verticalSpecRects, hmw,
    add_zero, sub_zero, mul_zero]

/-- C1 witness: on work area (0,0,1280,800) with `width_factor = 0.6`,
`margin = 0`, 2 masters and 1 slave, the issued rectangles are
(0,0,768,400), (0,400,768,400) and (768,0,512,800), and the windows'
stored geometry afterwards is exactly those rectangles. -/
theorem vertical_tile_requests_witness :
    exTileState.masters ≠ [] ∧ exTileState.slaves ≠ [] ∧
    exTileState.margin = 0 ∧
    (vTile exTileState).2 =
      [⟨0, 0, 768, 400⟩, ⟨0, 400, 768, 400⟩, ⟨768, 0, 512, 800⟩] ∧
    ((vTile exTileState).1.masters.map fun w => (w.x, w.y, w.width, w.height)) =
      [(0, 0, 768, 400), (0, 400, 768, 400)] ∧
    ((vTile exTileState).1.slaves.map fun w => (w.x, w.y, w.width, w.height)) =
      [(768, 0, 512, 800)] := by
  have h := vertical_tile_requests exTileState (by decide) (by decide) rfl
  refine ⟨by decide, by decide, rfl, ?_, ?_, ?_⟩
  · rw [h]
    norm_num [verticalSpecRects, pyInt, exTileState, exScreen,
      show Int.fdiv 800 2 = 400 from by decide,
      show Int.fdiv 800 1 = 800 from by decide, List.range_succ]
  · norm_num [vTile, tileColumn, help_resize, pyInt, Window.resize,
      Screen.is_in_screen, Screen.get_workarea, exTileState, exWin, exScreen,
      show Int.fdiv 800 2 = 400 from by decide,
      show Int.fdiv 800 1 = 800 from by decide]
  · norm_num [vTile, tileColumn, help_resize, pyInt, Window.resize,
      Screen.is_in_screen, Screen.get_workarea, exTileState, exWin, exScreen,
      show Int.fdiv 800 2 = 400 from by decide,
      show Int.fdiv 800 1 = 800 from by decide]

/-- C5 (amended): with both roles non-empty, `master_increase(f)` then
`master_decrease(f)` restores `width_factor` exactly, and — provided
every resize issued by the two calls is accepted by the bounds check —
restores every master's and slave's geometry exactly (so in particular
within 1 pixel). -/
theorem vertical_roundtrip (s : VState) (f : ℚ)
    (hm : s.masters ≠ []) (hs : s.slaves ≠ [])
    (h1 : ((vMasterIncreaseFull s f).2).all id = true)
    (h2 : ((vMasterDecreaseFull (vMasterIncrease s f) f).2).all id = true) :
    vMasterDecrease (vMasterIncrease s f) f = s := by
  have hg : (s.slaves.isEmpty || s.masters.isEmpty) = false := by
    simp [List.isEmpty_iff, hm, hs]
  set W : ℚ := ((s.screen.wawidth : Int) : ℚ) with hW
  set p : Int := pyInt ((s.width_factor + f) * W - s.width_factor * W) with hp
  have e_inc : vMasterIncrease s f =
      { s with
        width_factor := s.width_factor + f
        slaves := s.slaves.map fun sl =>
          (sl.resize s.screen (sl.x + p) sl.y (sl.width - p) sl.height).1
        masters := s.masters.map fun m =>
          (m.resize s.screen m.x m.y (m.width + p) m.height).1 } := by
    rw [vMasterIncrease, vMasterIncreaseFull, if_neg (by simp [hg])]
    simp [Screen.get_workarea, List.map_map, Function.comp_def]
  have hflags1 : (vMasterIncreaseFull s f).2 =
      (s.slaves.map fun sl =>
        (sl.resize s.screen (sl.x + p) sl.y (sl.width - p) sl.height).2) ++
      (s.masters.map fun m =>
        (m.resize s.screen m.x m.y (m.width + p) m.height).2) := by
    rw [vMasterIncreaseFull, if_neg (by simp [hg])]
    simp [Screen.get_workarea, List.map_map, Function.comp_def]
  rw [hflags1, List.all_append, Bool.and_eq_true] at h1
  have h1s : ∀ sl ∈ s.slaves,
      (sl.resize s.screen (sl.x + p) sl.y (sl.width - p) sl.height).2 = true := by
    have := h1.1
    simp only [List.all_eq_true, List.mem_map, id_eq] at this
    intro sl hsl
    exact this _ ⟨sl, hsl, rfl⟩
  have h1m : ∀ m ∈ s.masters,
      (m.resize s.screen m.x m.y (m.width + p) m.height).2 = true := by
    have := h1.2
    simp only [List.all_eq_true, List.mem_map, id_eq] at this
    intro m hmm
    exact this _ ⟨m, hmm, rfl⟩
  -- the decrease runs on the increased state with the same pixel delta
  have hg2 : ((vMasterIncrease s f).slaves.isEmpty ||
      (vMasterIncrease s f).masters.isEmpty) = false := by
    rw [e_inc]
    simp [List.isEmpty_iff, hm, hs]
  have hpix2 : pyInt ((vMasterIncrease s f).width_factor *
        ((s.screen.wawidth : Int) : ℚ) -
      ((vMasterIncrease s f).width_factor - f) *
        ((s.screen.wawidth : Int) : ℚ)) = p := by
    rw [← hW, e_inc, hp]
    exact congrArg pyInt (by ring)
  have e_dec : vMasterDecrease (vMasterIncrease s f) f =
      { vMasterIncrease s f with
        width_factor := (vMasterIncrease s f).width_factor - f
        slaves := (vMasterIncrease s f).slaves.map fun sl =>
          (sl.resize s.screen (sl.x - p) sl.y (sl.width + p) sl.height).1
        masters := (vMasterIncrease s f).masters.map fun m =>
          (m.resize s.screen m.x m.y (m.width - p) m.height).1 } := by
    rw [vMasterDecrease, vMasterDecreaseFull, if_neg (by simp [hg2])]
    have hscr : (vMasterIncrease s f).screen = s.screen := by rw [e_inc]
    simp [Screen.get_workarea, List.map_map, Function.comp_def, hscr, hpix2]
  have hflags2 : (vMasterDecreaseFull (vMasterIncrease s f) f).2 =
      ((vMasterIncrease s f).slaves.map fun sl =>
        (sl.resize s.screen (sl.x - p) sl.y (sl.width + p) sl.height).2) ++
      ((vMasterIncrease s f).masters.map fun m =>
        (m.resize s.screen m.x m.y (m.width - p) m.height).2) := by
    rw [vMasterDecreaseFull, if_neg (by simp [hg2])]
    have hscr : (vMasterIncrease s f).screen = s.screen := by rw [e_inc]
    simp [Screen.get_workarea, List.map_map, Function.comp_def, hscr, hpix2]
  rw [hflags2, List.all_append, Bool.and_eq_true] at h2
  have h2s : ∀ sl ∈ (vMasterIncrease s f).slaves,
      (sl.resize s.screen (sl.x - p) sl.y (sl.width + p) sl.height).2 = true := by
    have := h2.1
    simp only [List.all_eq_true, List.mem_map, id_eq] at this
    intro sl hsl
    exact this _ ⟨sl, hsl, rfl⟩
  have h2m : ∀ m ∈ (vMasterIncrease s f).masters,
      (m.resize s.screen m.x m.y (m.width - p) m.height).2 = true := by
    have := h2.2
    simp only [List.all_eq_true, List.mem_map, id_eq] at this
    intro m hmm
    exact this _ ⟨m, hmm, rfl⟩
  rw [e_dec, e_inc]
  rw [e_inc] at h2s h2m
  refine VState.ext rfl ?_ ?_ (by ring) rfl
  · exact roundtrip_map
      (fun m => m.resize s.screen m.x m.y (m.width + p) m.height)
      (fun m => m.resize s.screen m.x m.y (m.width - p) m.height)
      s.masters h1m
      (fun m hmm => h2m _ (List.mem_map_of_mem _ hmm))
      (fun m _ ha hb => master_roundtrip_one s.screen p m ha hb)
  · exact roundtrip_map
      (fun sl => sl.resize s.screen (sl.x + p) sl.y (sl.width - p) sl.height)
      (fun sl => sl.resize s.screen (sl.x - p) sl.y (sl.width + p) sl.height)
      s.slaves h1s
      (fun sl hsl => h2s _ (List.mem_map_of_mem _ hsl))
      (fun sl _ ha hb => slave_roundtrip_one s.screen p sl ha hb)

/-- C5 counterexample: on `exNarrow` (both roles non-empty,
`width_factor = 0.95`, factor 0.05) the increase's slave resize is
silently rejected (target width 0), but the decrease's is accepted, so
the round trip leaves the slave at width 128 and x 1152 instead of its
original width 64 and x 1216 — a 64-pixel change, far beyond 1 pixel —
even though `width_factor` itself is restored. -/
theorem vertical_roundtrip_counterexample :
    exNarrow.masters ≠ [] ∧ exNarrow.slaves ≠ [] ∧
    (exNarrow.slaves.map fun w => (w.x, w.width)) = [(1216, 64)] ∧
    ((vMasterDecrease (vMasterIncrease exNarrow (1/20)) (1/20)).slaves.map
      fun w => (w.x, w.width)) = [(1152, 128)] ∧
    (vMasterDecrease (vMasterIncrease exNarrow (1/20)) (1/20)).width_factor =
      exNarrow.width_factor ∧
    ¬ ((vMasterDecrease (vMasterIncrease exNarrow (1/20)) (1/20)).slaves.map
        fun w => (w.x, w.width)) = (exNarrow.slaves.map fun w => (w.x, w.width)) := by
  refine ⟨by decide, by decide, by decide, ?_, ?_, ?_⟩
  · norm_num [vMasterDecrease, vMasterIncrease, vMasterIncreaseFull,
      vMasterDecreaseFull, pyInt, Window.resize, Screen.is_in_screen,
      Screen.get_workarea, exNarrow, exWin, exScreen]
  · norm_num [vMasterDecrease, vMasterIncrease, vMasterIncreaseFull,
      vMasterDecreaseFull, pyInt, Window.resize, Screen.is_in_screen,
      Screen.get_workarea, exNarrow, exWin, exScreen]
  · norm_num [vMasterDecrease, vMasterIncrease, vMasterIncreaseFull,
      vMasterDecreaseFull, pyInt, Window.resize, Screen.is_in_screen,
      Screen.get_workarea, exNarrow, exWin, exScreen]

/-- C5 witness: on `exHalf` every resize of the 0.05 increase and the
following 0.05 decrease is accepted, and the round trip restores the
state — `width_factor` and every geometry — exactly. -/
theorem vertical_roundtrip_witness :
    exHalf.masters ≠ [] ∧ exHalf.slaves ≠ [] ∧
    ((vMasterIncreaseFull exHalf (1/20)).2).all id = true ∧
    ((vMasterDecreaseFull (vMasterIncrease exHalf (1/20)) (1/20)).2).all id = true ∧
    vMasterDecrease (vMasterIncrease exHalf (1/20)) (1/20) = exHalf := by
  have h1 : ((vMasterIncreaseFull exHalf (1/20)).2).all id = true := by
    norm_num [vMasterIncreaseFull, pyInt, Window.resize, Screen.is_in_screen,
      Screen.get_workarea, exHalf, exWin, exScreen]
  have h2 : ((vMasterDecreaseFull (vMasterIncrease exHalf (1/20)) (1/20)).2).all
      id = true := by
    norm_num [vMasterDecrease, vMasterIncrease, vMasterIncreaseFull,
      vMasterDecreaseFull, pyInt, Window.resize, Screen.is_in_screen,
      Screen.get_workarea, exHalf, exWin, exScreen]
  exact ⟨by decide, by decide, h1, h2,
    vertical_roundtrip exHalf (1/20) (by decide) (by decide) h1 h2⟩

/-- A viewport covering `exScreen`, and a desktop holding it. -/
def exViewport : Viewport :=
  { id := 0, x := 0, y := 0, width := 1280, height := 800,
    screens := [exScreen] }

/-- The single tracked desktop of the examples. -/
def exDesktop : Desktop := { id := 0, viewports := [exViewport] }

/-- A probe snapshot of a non-popup xterm window at (5,5) on desktop 0. -/
def exXtermAttrs : Attrs :=
  { id := 7, x := 5, y := 5, width := 80, height := 60,
    d_left := 0, d_right := 0, d_top := 0, d_bottom := 0,
    desktop := 0, title := [],
    winclass := some ("xterm".toList, "XTerm".toList),
    static := false, hidden := false, popup := false, xobj := true }

/-- C2 (amended): `load_window` creates no `Window` entity and performs
no probe registration when the snapshot is a popup or its desktop is
untracked; when the window matches a configured filter the entity is
still constructed (and its constructor registers the probe listener) but
it is discarded — never added to any screen's membership, no screen is
marked dirty, and it is never activated. -/
theorem load_window_admission (desktops : List Desktop)
    (filters : List (List Char)) (activeId : Int) (a : Attrs) :
    ((a.popup = true ∨ desktops.find? (fun d => d.id == a.desktop) = none) →
      loadWindow desktops filters activeId a = ⟨[], [], [], [], []⟩) ∧
    (pyFiltered a.winclass filters = true →
      (loadWindow desktops filters activeId a).added = [] ∧
      (loadWindow desktops filters activeId a).dirty = [] ∧
      (loadWindow desktops filters activeId a).activated = []) := by
  constructor
  · rintro (h | h)
    · rw [loadWindow, if_pos h]
    · rw [loadWindow]
      split
      · rfl
      · rw [h]
  · intro hf
    rw [loadWindow]
    split
    · exact ⟨rfl, rfl, rfl⟩
    · cases hfind : desktops.find? fun d => d.id == a.desktop with
      | none => exact ⟨rfl, rfl, rfl⟩
      | some d => exact loadStep_filtered hf (containingScreens d a.x a.y) _

/-- C2 counterexample: the xterm snapshot matches the configured filter
`"xterm"`, yet `load_window` still constructs a `Window` object and still
registers the probe listener for it — only the screen membership is
skipped — contradicting the claim that no entity object exists and no
probe registration happens for a filtered window. -/
theorem load_window_admission_counterexample :
    pyFiltered exXtermAttrs.winclass ["xterm".toList] = true ∧
    exXtermAttrs.popup = false ∧
    (loadWindow [exDesktop] ["xterm".toList] 99 exXtermAttrs).created.length = 1 ∧
    (loadWindow [exDesktop] ["xterm".toList] 99 exXtermAttrs).listened = [7] ∧
    (loadWindow [exDesktop] ["xterm".toList] 99 exXtermAttrs).added = [] := by
  refine ⟨by decide, rfl, ?_, ?_, ?_⟩ <;> decide

/-- C2 witness: a popup snapshot yields no entity and no registration at
all, and the filtered xterm snapshot yields no membership, no dirty
screen, and no activation. -/
theorem load_window_admission_witness :
    ({ exXtermAttrs with popup := true }.popup = true ∨
      [exDesktop].find? (fun d => d.id == { exXtermAttrs with popup := true }.desktop) = none) ∧
    loadWindow [exDesktop] ["xterm".toList] 99 { exXtermAttrs with popup := true } =
      ⟨[], [], [], [], []⟩ ∧
    pyFiltered exXtermAttrs.winclass ["xterm".toList] = true ∧
    (loadWindow [exDesktop] ["xterm".toList] 99 exXtermAttrs).added = [] ∧
    (loadWindow [exDesktop] ["xterm".toList] 99 exXtermAttrs).dirty = [] :=
  ⟨Or.inl rfl,
   (load_window_admission [exDesktop] ["xterm".toList] 99
     { exXtermAttrs with popup := true }).1 (Or.inl rfl),
   by decide,
   ((load_window_admission [exDesktop] ["xterm".toList] 99 exXtermAttrs).2
     (by decide)).1,
   ((load_window_admission [exDesktop] ["xterm".toList] 99 exXtermAttrs).2
     (by decide)).2.1⟩

/-- C4: when `refresh` sees a changed desktop or a position outside the
current viewport or screen, and exactly one screen of the new desktop's
viewports contains that position (a screen different from the old one),
the window is removed from the old screen's membership, added to the new
screen's, both screens are marked dirty exactly once, and the
owning-screen back-reference is set to the new screen. -/
theorem refresh_relocation (w : Window) (od : Desktop) (ovp : Viewport)
    (os : Screen) (u : Attrs) (desktops : List Desktop) (nd : Desktop)
    (sc : Screen)
    (hown : w.screen = os.id)
    (htrig : od.id ≠ u.desktop ∨ ovp.is_on_viewport u.x u.y = false ∨
      os.is_on_screen u.x u.y = false)
    (hfind : desktops.find? (fun d => d.id == u.desktop) = some nd)
    (huniq : containingScreens nd u.x u.y = [sc])
    (hne : sc.id ≠ os.id) :
    (refresh w od ovp os u desktops).win.screen = sc.id ∧
    (refresh w od ovp os u desktops).dirty = [sc.id, os.id] ∧
    ((refresh w od ovp os u desktops).dirty.count os.id = 1 ∧
     (refresh w od ovp os u desktops).dirty.count sc.id = 1) ∧
    (∀ t ∈ allScreens (refresh w od ovp os u desktops).desktops,
      (t.id = os.id → u.id ∉ t.windows) ∧
      (t.id = sc.id → u.id ∈ t.windows)) := by
  have hnes : os.id ≠ sc.id := Ne.symm hne
  have htrig' : od.id ≠
      (updateAttributes w { u with width := w.width, height := w.height }).desktop ∨
      ovp.is_on_viewport u.x u.y = false ∨
      os.is_on_screen u.x u.y = false := htrig
  have hfind' : desktops.find? (fun d => d.id ==
      (updateAttributes w { u with width := w.width, height := w.height }).desktop) =
      some nd := hfind
  have hr : refresh w od ovp os u desktops =
      relocStep os
        ⟨updateAttributes w { u with width := w.width, height := w.height },
          desktops, []⟩ sc := by
    simp only [refresh]
    rw [if_pos htrig', hfind']
    show (containingScreens nd u.x u.y).foldl (relocStep os)
      ⟨updateAttributes w { u with width := w.width, height := w.height },
        desktops, []⟩ = _
    rw [huniq]
    rfl
  rw [hr]
  refine ⟨rfl, rfl, ⟨?_, ?_⟩, ?_⟩
  · show List.count os.id ([] ++ [sc.id, os.id]) = 1
    simp [List.count_cons, hnes]
  · show List.count sc.id ([] ++ [sc.id, os.id]) = 1
    simp [List.count_cons, hne]
  · intro t ht
    simp only [relocStep, addToScreen] at ht
    rw [mem_allScreens_mapScreens] at ht
    obtain ⟨t₁, ht₁, rfl⟩ := ht
    simp only [deleteFromScreen] at ht₁
    rw [mem_allScreens_mapScreens] at ht₁
    obtain ⟨t₀, ht₀, rfl⟩ := ht₁
    by_cases h₀ : t₀.id = os.id <;> by_cases h₁ : t₀.id = sc.id <;>
      constructor <;> intro hid <;>
      simp_all [updateAttributes, List.mem_filter, List.mem_append, hnes]

/-- The second desktop's screen in the relocation example; it holds no
windows yet. -/
def exScreen2 : Screen :=
  { id := 1, x := 0, y := 0, width := 1280, height := 800,
    wax := 0, way := 0, wawidth := 1280, waheight := 800, windows := [] }

/-- The old screen in the relocation example, holding window 7. -/
def exScreenOld : Screen := { exScreen with windows := [7] }

/-- The old viewport, holding `exScreenOld`. -/
def exViewportOld : Viewport := { exViewport with screens := [exScreenOld] }

/-- The old desktop (id 0), holding `exViewportOld`. -/
def exDesktopOld : Desktop := { id := 0, viewports := [exViewportOld] }

/-- The new viewport, holding `exScreen2`. -/
def exViewportNew : Viewport :=
  { id := 1, x := 0, y := 0, width := 1280, height := 800,
    screens := [exScreen2] }

/-- The new desktop (id 1), holding `exViewportNew`. -/
def exDesktopNew : Desktop := { id := 1, viewports := [exViewportNew] }

/-- Window 7, owned by screen 0 of desktop 0. -/
def exWinOld : Window := { exWin 7 10 10 100 100 with desktop := 0, screen := 0 }

/-- A probe snapshot reporting window 7 moved to desktop 1 at (5,5). -/
def exMovedAttrs : Attrs :=
  { id := 7, x := 5, y := 5, width := 100, height := 100,
    d_left := 0, d_right := 0, d_top := 0, d_bottom := 0,
    desktop := 1, title := [], winclass := none,
    static := false, hidden := false, popup := false, xobj := true }

/-- C4 witness: window 7's refresh on the two-desktop world relocates it
from screen 0 to screen 1, marks both screens dirty exactly once, and the
updated hierarchy no longer lists 7 on screen 0 but lists it on screen 1. -/
theorem refresh_relocation_witness :
    (refresh exWinOld exDesktopOld exViewportOld exScreenOld exMovedAttrs
      [exDesktopOld, exDesktopNew]).win.screen = 1 ∧
    (refresh exWinOld exDesktopOld exViewportOld exScreenOld exMovedAttrs
      [exDesktopOld, exDesktopNew]).dirty = [1, 0] ∧
    (refresh exWinOld exDesktopOld exViewportOld exScreenOld exMovedAttrs
      [exDesktopOld, exDesktopNew]).dirty.count 0 = 1 ∧
    (refresh exWinOld exDesktopOld exViewportOld exScreenOld exMovedAttrs
      [exDesktopOld, exDesktopNew]).dirty.count 1 = 1 := by
  have h := refresh_relocation exWinOld exDesktopOld exViewportOld exScreenOld
    exMovedAttrs [exDesktopOld, exDesktopNew] exDesktopNew exScreen2
    rfl (Or.inl (by decide)) (by decide) (by decide) (by decide)
  exact ⟨h.1, h.2.1, h.2.2.1.1, h.2.2.1.2⟩
